import Mathlib

/-!
Verification of the JSON-RPC 2.0 WebSocket client (`src/lib/client.js` of
rpc-websockets).  The client is embedded shallowly: JavaScript values that
flow through the message handler are modelled by `JVal` (with JS truthiness),
the per-instance mutable fields of the `Client` class become the record
`ClientState`, and each event handler of `_connect` as well as the public
`call` / `notify` methods become pure functions from a state (plus the
externally supplied inputs: the parsed message, the close code, the outcome
the transport passes to the send callback) to a new state and a list of
observable effects (events emitted, callbacks invoked, timers scheduled,
frames sent).  A thrown `TypeError` (reading `.length` of `undefined`/`null`)
is modelled by `Except`.
-/

set_option autoImplicit false

namespace RpcWs

/-- JavaScript values that can appear in a decoded JSON message (JSON values
plus `undefined` for an absent field). -/
inductive JVal where
  | undefined : JVal
  | null : JVal
  | bool : Bool → JVal
  | num : Int → JVal
  | str : String → JVal
  | arr : List JVal → JVal

/-- JavaScript truthiness of a `JVal` (`undefined`, `null`, `false`, `0` and
`""` are falsy; any array object is truthy). -/
def truthy : JVal → Bool
  | .undefined => false
  | .null => false
  | .bool b => b
  | .num n => n != 0
  | .str s => s != ""
  | .arr _ => true

/-- A thrown JavaScript error: the message handler can only throw a
`TypeError` (property read on `undefined`/`null`). -/
inductive JsErr where
  | typeError : JsErr

/-- Reading `v.length`: throws on `undefined`/`null`, yields the length for
arrays and strings, and `undefined` for numbers and booleans (which have no
`length` property). -/
def lengthRead : JVal → Except JsErr JVal
  | .undefined => .error .typeError
  | .null => .error .typeError
  | .arr xs => .ok (.num (Int.ofNat xs.length))
  | .str s => .ok (.num (Int.ofNat s.length))
  | .num _ => .ok .undefined
  | .bool _ => .ok .undefined

/-- Reading `v[i]` for a natural index: array element (or `undefined` past the
end), one-character string for strings, `undefined` otherwise. -/
def idxRead : JVal → Nat → JVal
  | .arr xs, i => xs.getD i .undefined
  | .str s, i =>
    match s.toList.get? i with
    | some c => .str (String.mk [c])
    | none => .undefined
  | _, _ => .undefined

/-- The `args` accumulated by the `for`-loop of the notification branch:
`message.params[0] .. message.params[len-1]`. -/
def buildArgs (p : JVal) (len : Nat) : List JVal :=
  (List.range len).map (idxRead p)

/-- The numeric loop bound of `for (let i = 0; i < message.params.length; i++)`
once `message.params.length` is known to be a number. -/
def loopBound : JVal → Nat
  | .num n => n.toNat
  | _ => 0

/-- A slot of `this.queue`: a live `[resolve, reject]` pair, or the `null`
tombstone left behind after resolution. -/
inductive QEntry where
  | pending : QEntry
  | tombstone : QEntry

/-- `this.queue`, an object keyed by the numeric rpc id.  Modelled as an
association list; an absent key is JavaScript `undefined`. -/
def Queue := List (Nat × QEntry)

/-- `this.queue[k]` (`none` = absent, i.e. `undefined`). -/
def qLookup (q : Queue) (k : Nat) : Option QEntry :=
  (q.find? (fun p => p.1 == k)).map (fun p => p.2)

/-- `this.queue[k] = e` (replace an existing binding, otherwise append). -/
def qSet (q : Queue) (k : Nat) (e : QEntry) : Queue :=
  match q with
  | [] => [(k, e)]
  | (k', e') :: rest =>
    if k' == k then (k, e) :: rest else (k', e') :: qSet rest k e

/-- The `null`-or-absent test `!this.queue[message.id]` succeeds (i.e. the
handler returns early) unless the slot holds a live pair. -/
def qLive (q : Queue) (k : Nat) : Bool :=
  match qLookup q k with
  | some .pending => true
  | _ => false

/-- The object key JavaScript would use for `this.queue[message.id]`,
normalised to the numeric ids the client registers: a non-negative integer
number, or a string spelling one canonically.  Every other key misses the
queue (only `++this.rpc_id` values are ever registered). -/
def toKey : JVal → Option Nat
  | .num n => if 0 ≤ n then some n.toNat else none
  | .str s =>
    match s.toNat? with
    | some n => if toString n = s then some n else none
    | none => none
  | _ => none

/-- The mutable per-instance fields set up by the `Client` constructor and
`_connect` (`this.socket` is abstracted to a generation counter: `_connect`
replaces the socket). -/
structure ClientState where
  queue : Queue
  rpc_id : Nat
  ready : Bool
  reconnect : Bool
  reconnect_interval : Nat
  max_reconnects : Nat
  current_reconnects : Nat
  socket_gen : Nat

/-- The state the constructor establishes (before any socket event fires):
`queue = {}`, `rpc_id = 0`, `ready = false`, `current_reconnects = 0`. -/
def initState (reconnect : Bool) (reconnect_interval : Nat) (max_reconnects : Nat) :
    ClientState :=
  { queue := []
    rpc_id := 0
    ready := false
    reconnect := reconnect
    reconnect_interval := reconnect_interval
    max_reconnects := max_reconnects
    current_reconnects := 0
    socket_gen := 0 }

/-- A decoded inbound message, as the fields the handler reads (an absent
field is `undefined`). -/
structure JMsg where
  notification : JVal := JVal.undefined
  params : JVal := JVal.undefined
  id : JVal := JVal.undefined
  error : JVal := JVal.undefined
  result : JVal := JVal.undefined

/-- The outcome of `JSON.parse` on the raw transport payload: a decode
failure (caught, handler returns) or a decoded message. -/
inductive ParseResult where
  | malformed : ParseResult
  | parsed : JMsg → ParseResult

/-- An outbound frame `{jsonrpc, method, params, id?}` as built by
`call` / `notify`. -/
structure OutMsg where
  jsonrpc : String
  method : String
  params : JVal
  id : Option Nat

/-- `params || null` as used when building outbound frames. -/
def orNull (p : JVal) : JVal :=
  if truthy p then p else JVal.null

/-- Observable effects of one handler step: locally emitted events, listener
fan-out, promise callbacks, the reconnect timer, and transmitted frames. -/
inductive Effect where
  | emitOpen : Effect
  | emitClose : Int → Effect
  | emitEvent : JVal → List JVal → Effect
  | resolveCb : Nat → JVal → Effect
  | rejectCb : Nat → JVal → Effect
  | setTimer : Nat → Effect
  | sendMsg : OutMsg → Effect

/-- The guard of the notification branch:
`message.notification && this.listeners(message.notification).length`.
`L` gives the number of locally attached listeners per event name value. -/
def notifTaken (L : JVal → Nat) (m : JMsg) : Bool :=
  truthy m.notification && (L m.notification != 0)

/-- The `this.socket.on("open", ...)` handler: set `ready`, emit `open`,
reset `current_reconnects`. -/
def onOpen (st : ClientState) : ClientState × List Effect :=
  ({ st with ready := true, current_reconnects := 0 }, [Effect.emitOpen])

/-- The `this.socket.on("message", ...)` handler.  `JSON.parse` failure is
swallowed; a notification with attached listeners is fanned out (reading
`message.params.length`, which may throw); otherwise the message falls
through to the response path, which resolves or rejects a live queue entry
and tombstones it. -/
def onMessage (L : JVal → Nat) (st : ClientState) :
    ParseResult → Except JsErr (ClientState × List Effect)
  | .malformed => .ok (st, [])
  | .parsed m =>
    if notifTaken L m then
      match lengthRead m.params with
      | .error e => .error e
      | .ok len =>
        if !truthy len then
          .ok (st, [Effect.emitEvent m.notification []])
        else
          .ok (st, [Effect.emitEvent m.notification (buildArgs m.params (loopBound len))])
    else
      match toKey m.id with
      | none => .ok (st, [])
      | some k =>
        if qLive st.queue k then
          if truthy m.error then
            .ok ({ st with queue := qSet st.queue k .tombstone }, [Effect.rejectCb k m.error])
          else
            .ok ({ st with queue := qSet st.queue k .tombstone }, [Effect.resolveCb k m.result])
        else
          .ok (st, [])

/-- The `this.socket.on("close", ...)` handler: clear `ready`, emit `close`;
stop on code `1000`; otherwise bump `current_reconnects` and, when
`this.reconnect && (this.max_reconnects > this.current_reconnects) ||
this.max_reconnects === 0` (JavaScript precedence: `&&` binds tighter than
`||`), schedule a `_connect` retry after `reconnect_interval`.  The source
increments `this.current_reconnects` before the comparison, so the guard
reads the incremented value `current_reconnects + 1` here. -/
def onClose (st : ClientState) (code : Int) : ClientState × List Effect :=
  if code == 1000 then
    ({ st with ready := false }, [Effect.emitClose code])
  else if (st.reconnect && decide (st.max_reconnects > st.current_reconnects + 1))
      || (st.max_reconnects == 0) then
    ({ st with ready := false, current_reconnects := st.current_reconnects + 1 },
      [Effect.emitClose code, Effect.setTimer st.reconnect_interval])
  else
    ({ st with ready := false, current_reconnects := st.current_reconnects + 1 },
      [Effect.emitClose code])

/-- The state change `_connect` itself performs: it replaces `this.socket`
(and rebinds the handlers); no counter or queue field is touched. -/
def connectStep (st : ClientState) : ClientState :=
  { st with socket_gen := st.socket_gen + 1 }

/-- Whether a handler step scheduled a reconnect timer. -/
def hasTimer (effs : List Effect) : Bool :=
  effs.any (fun e => match e with | .setTimer _ => true | _ => false)

/-- A close with a non-`1000` code schedules a reconnect attempt. -/
def schedules (st : ClientState) (code : Int) : Bool :=
  hasTimer (onClose st code).2

/-- Immediate disposition of a `call` invocation: the promise was rejected
because the socket is not ready, rejected by the send callback's error, or a
pending entry was registered under the allocated id. -/
inductive CallOutcome where
  | notReady : CallOutcome
  | sendFailure : JVal → CallOutcome
  | registered : Nat → CallOutcome

/-- Immediate disposition of a `notify` invocation. -/
inductive NotifyOutcome where
  | notReady : NotifyOutcome
  | sendFailure : JVal → NotifyOutcome
  | resolved : NotifyOutcome

/-- The request frame built by `call`. -/
def reqMsg (method : String) (params : JVal) (rid : Nat) : OutMsg :=
  { jsonrpc := "2.0", method := method, params := orNull params, id := some rid }

/-- The notification frame built by `notify` (no id). -/
def notifMsg (method : String) (params : JVal) : OutMsg :=
  { jsonrpc := "2.0", method := method, params := orNull params, id := none }

/-- `call(method, params)`.  `sendErr` is the value the transport passes to
the send callback (truthy on failure).  Not ready: reject, nothing sent.
Otherwise allocate `++this.rpc_id`, transmit, and in the callback either
reject (leaving the queue untouched) or register `[resolve, reject]` under
the allocated id. -/
def call (st : ClientState) (method : String) (params : JVal) (sendErr : JVal) :
    ClientState × CallOutcome × List Effect :=
  if !st.ready then
    (st, .notReady, [])
  else
    let rid := st.rpc_id + 1
    let st1 := { st with rpc_id := rid }
    if truthy sendErr then
      (st1, .sendFailure sendErr, [Effect.sendMsg (reqMsg method params rid)])
    else
      ({ st1 with queue := qSet st1.queue rid .pending },
        .registered rid,
        [Effect.sendMsg (reqMsg method params rid)])

/-- `notify(method, params)`: same readiness gate, sends an id-less frame,
resolves once the send callback reports no error. -/
def notify (st : ClientState) (method : String) (params : JVal) (sendErr : JVal) :
    ClientState × NotifyOutcome × List Effect :=
  if !st.ready then
    (st, .notReady, [])
  else if truthy sendErr then
    (st, .sendFailure sendErr, [Effect.sendMsg (notifMsg method params)])
  else
    (st, .resolved, [Effect.sendMsg (notifMsg method params)])

/-- Reconnection attempts observed over a run of successive abnormal
closures: each iteration is one `close` event with code `1006`; if it
schedules a retry, `_connect` runs and the new socket closes abnormally
again; if not, the client has given up and the run stops. -/
def closeLoop (st : ClientState) : Nat → Nat
  | 0 => 0
  | n + 1 =>
    if schedules st 1006 then
      1 + closeLoop (connectStep (onClose st 1006).1) n
    else
      0

/-! Concrete fixtures used by witnesses and counterexamples. -/

/-- A listener table with exactly one listener on `"tick"`. -/
def L1 : JVal → Nat := fun v => match v with | .str "tick" => 1 | _ => 0

/-- A listener table with exactly one listener on the empty-string event. -/
def Lempty : JVal → Nat := fun v => match v with | .str "" => 1 | _ => 0

/-- A listener table with exactly one listener on `"a"`. -/
def La : JVal → Nat := fun v => match v with | .str "a" => 1 | _ => 0

/-- No listeners attached at all. -/
def Lnone : JVal → Nat := fun _ => 0

/-- A freshly constructed client (default options). -/
def st0 : ClientState := initState true 1000 5

/-- An open client with three calls in flight (ids 1, 2, 3). -/
def stReady : ClientState :=
  { queue := [(1, QEntry.pending), (2, QEntry.pending), (3, QEntry.pending)]
    rpc_id := 3
    ready := true
    reconnect := true
    reconnect_interval := 1000
    max_reconnects := 5
    current_reconnects := 0
    socket_gen := 1 }

end RpcWs

namespace RpcWs

/-! Helper lemmas shared between the claim theorems. -/

/-- Updating a queue slot makes the lookup of that key return the new entry. -/
theorem qLookup_qSet_self (q : Queue) (k : Nat) (e : QEntry) :
    qLookup (qSet q k e) k = some e := by
  induction q with
  | nil => simp [qSet, qLookup, List.find?]
  | cons p rest ih =>
    obtain ⟨k', e'⟩ := p
    by_cases hk : k' = k
    · simp [qSet, hk, qLookup, List.find?]
    · simpa [qSet, hk, qLookup, List.find?, Ne.symm hk] using ih

/-- The `for`-loop over an array's indices rebuilds exactly its elements. -/
theorem buildArgs_arr (xs : List JVal) : buildArgs (JVal.arr xs) xs.length = xs := by
  apply List.ext_getElem
  · simp [buildArgs]
  · intro i h1 h2
    simp only [buildArgs, List.getElem_map, List.getElem_range, idxRead]
    simp [List.getD_eq_getElem?_getD, List.getElem?_eq_getElem h2]

/-- Response path, live entry: the matching callback fires and the slot is
tombstoned. -/
theorem onMessage_resp (L : JVal → Nat) (st : ClientState) (m : JMsg) (k : Nat)
    (hn : notifTaken L m = false) (hk : toKey m.id = some k)
    (hq : qLive st.queue k = true) :
    onMessage L st (.parsed m)
      = .ok ({ st with queue := qSet st.queue k QEntry.tombstone },
          [if truthy m.error then Effect.rejectCb k m.error
           else Effect.resolveCb k m.result]) := by
  simp only [onMessage, hn, Bool.false_eq_true, if_false, hk]
  rw [if_pos hq]
  by_cases he : truthy m.error
  · simp [he]
  · simp [he]

/-- Response path, no live entry under the message's key: silent no-op. -/
theorem onMessage_resp_miss (L : JVal → Nat) (st : ClientState) (m : JMsg)
    (hn : notifTaken L m = false) :
    (toKey m.id = none → onMessage L st (.parsed m) = .ok (st, []))
    ∧ (∀ k, toKey m.id = some k → qLive st.queue k = false →
        onMessage L st (.parsed m) = .ok (st, [])) := by
  constructor
  · intro hk
    simp [onMessage, hn, hk]
  · intro k hk hq
    simp only [onMessage, hn, Bool.false_eq_true, if_false, hk]
    simp [hq]

/-- Every successful message-handler step leaves `rpc_id` unchanged. -/
theorem onMessage_rpc_id (L : JVal → Nat) (st : ClientState) (pr : ParseResult)
    (st2 : ClientState) (effs : List Effect)
    (h : onMessage L st pr = Except.ok (st2, effs)) : st2.rpc_id = st.rpc_id := by
  rcases pr with _ | m
  · simp only [onMessage, Except.ok.injEq, Prod.mk.injEq] at h
    rw [← h.1]
  · simp only [onMessage] at h
    split at h
    · split at h
      · simp at h
      · split at h <;>
        · simp only [Except.ok.injEq, Prod.mk.injEq] at h
          rw [← h.1]
    · split at h
      · simp only [Except.ok.injEq, Prod.mk.injEq] at h
        rw [← h.1]
      · split at h
        · split at h <;>
          · simp only [Except.ok.injEq, Prod.mk.injEq] at h
            rw [← h.1]
        · simp only [Except.ok.injEq, Prod.mk.injEq] at h
          rw [← h.1]

/-- `onClose` never changes the configured reconnect policy fields. -/
theorem onClose_policy (st : ClientState) (code : Int) :
    (onClose st code).1.max_reconnects = st.max_reconnects
    ∧ (onClose st code).1.reconnect = st.reconnect
    ∧ (onClose st code).1.reconnect_interval = st.reconnect_interval := by
  unfold onClose
  split
  · exact ⟨rfl, rfl, rfl⟩
  · split
    · exact ⟨rfl, rfl, rfl⟩
    · exact ⟨rfl, rfl, rfl⟩

/-- The scheduling decision of an abnormal close, as the source's boolean
guard with the incremented counter. -/
theorem schedules_eq (st : ClientState) (code : Int) (hc : (code == 1000) = false) :
    schedules st code
      = ((st.reconnect && decide (st.max_reconnects > st.current_reconnects + 1))
          || (st.max_reconnects == 0)) := by
  unfold schedules onClose hasTimer
  rw [hc]
  simp only [Bool.false_eq_true, if_false]
  split
  · rename_i hcond
    rw [hcond]
    rfl
  · rename_i hcond
    rw [Bool.not_eq_true] at hcond
    rw [hcond]
    rfl

/-- With an unlimited cap (`max_reconnects = 0`) every abnormal close
schedules a retry. -/
theorem schedules_of_unlimited (st : ClientState) (h : st.max_reconnects = 0) :
    schedules st 1006 = true := by
  rw [schedules_eq st 1006 rfl]
  simp [h]

/-- With an unlimited cap, a run of `n` abnormal closures schedules `n`
retries: one after every closure. -/
theorem closeLoop_unlimited (n : Nat) (st : ClientState)
    (h : st.max_reconnects = 0) : closeLoop st n = n := by
  induction n generalizing st with
  | zero => rfl
  | succ k ih =>
    rw [closeLoop]
    rw [if_pos (schedules_of_unlimited st h)]
    have hmax : (connectStep (onClose st 1006).1).max_reconnects = 0 := by
      have := (onClose_policy st 1006).1
      simpa [connectStep] using this.trans h
    rw [ih _ hmax]
    omega

end RpcWs

namespace RpcWs

/-- Claim C1 (amended): after an abnormal closure (code ≠ 1000) a reconnect is
scheduled if and only if (reconnection is enabled AND the incremented attempt
count is under the cap) OR the cap is configured as unlimited
(`max_reconnects = 0`).  Because of JavaScript operator precedence the
unlimited-cap disjunct is *not* guarded by `reconnect`: a disabled client
with `max_reconnects = 0` still reconnects (see the counterexample). -/
theorem c1_schedule_iff (st : ClientState) (code : Int) (h : code ≠ 1000) :
    schedules st code = true ↔
      ((st.reconnect = true ∧ st.current_reconnects + 1 < st.max_reconnects)
        ∨ st.max_reconnects = 0) := by
  have hc : (code == 1000) = false := by simpa using h
  rw [schedules_eq st code hc]
  simp [Bool.or_eq_true, Bool.and_eq_true, decide_eq_true_eq, beq_iff_eq, gt_iff_lt]

/-- Claim C1, counterexample to the claim as stated: with reconnection
*disabled* (`reconnect = false`) but `max_reconnects = 0`, an abnormal
closure still schedules a reconnect attempt, because the
`|| this.max_reconnects === 0` disjunct escapes the `this.reconnect &&`
guard.  The claim asserts that a disabled policy never schedules one. -/
theorem c1_cx_disabled_unlimited :
    schedules (initState false 1000 0) 1006 = true := rfl

/-- Claim C1, witness for the amended theorem at a concrete input. -/
theorem c1_schedule_iff_w :
    schedules (initState true 1000 5) 1006 = true :=
  (c1_schedule_iff (initState true 1000 5) 1006 (by decide)).mpr
    (Or.inl ⟨rfl, by decide⟩)

/-- Claim C2 (amended): with `max_reconnects = 2` a client whose sockets keep
closing abnormally schedules exactly **1** reconnection attempt before giving
up (the counter is incremented before the `max_reconnects >
current_reconnects` comparison, so a cap of `n ≥ 1` yields `n - 1` retries);
with `max_reconnects = 0` the attempts are unbounded: every abnormal closure
schedules another retry. -/
theorem c2_attempt_counts :
    (∀ fuel, 2 ≤ fuel → closeLoop (initState true 1000 2) fuel = 1)
    ∧ (∀ n, closeLoop (initState true 1000 0) n = n) := by
  constructor
  · intro fuel hf
    obtain ⟨k, rfl⟩ : ∃ k, fuel = k + 2 := ⟨fuel - 2, by omega⟩
    have h2 : closeLoop (connectStep (onClose (initState true 1000 2) 1006).1) (k + 1)
        = 0 := by
      rw [closeLoop]
      rw [if_neg]
      rw [show schedules (connectStep (onClose (initState true 1000 2) 1006).1) 1006
            = false from rfl]
      simp
    rw [show k + 2 = (k + 1) + 1 from rfl, closeLoop]
    rw [if_pos (show schedules (initState true 1000 2) 1006 = true from rfl)]
    rw [h2]
  · intro n
    exact closeLoop_unlimited n _ rfl

/-- Claim C2, counterexample to the claim as stated: with `max_reconnects = 2`
a run of 100 successive abnormal closures produces exactly 1 scheduled
reconnection attempt, not the 2 the claim asserts. -/
theorem c2_cx_two_attempts :
    closeLoop (initState true 1000 2) 100 = 1 := by decide

/-- Claim C2, witness for the amended theorem at concrete inputs. -/
theorem c2_attempt_counts_w :
    closeLoop (initState true 1000 2) 5 = 1
    ∧ closeLoop (initState true 1000 0) 5 = 5 :=
  ⟨c2_attempt_counts.1 5 (by decide), c2_attempt_counts.2 5⟩

/-- Claim C7: a close with code 1000 halts the reconnection machine: the
handler only clears `ready` and emits the local `close` event; no timer is
scheduled and `current_reconnects` is not incremented. -/
theorem c7_normal_close_halts (st : ClientState) :
    onClose st 1000 = ({ st with ready := false }, [Effect.emitClose 1000])
    ∧ schedules st 1000 = false
    ∧ (onClose st 1000).1.current_reconnects = st.current_reconnects :=
  ⟨rfl, rfl, rfl⟩

/-- Claim C8: a payload that fails to decode as JSON is silently discarded:
the handler returns normally (no thrown error), the state — queue, id
counter, readiness, reconnect counters — is unchanged and no effect (no
callback, no event) is produced. -/
theorem c8_malformed_discarded (L : JVal → Nat) (st : ClientState) :
    onMessage L st ParseResult.malformed = .ok (st, []) := rfl

/-- Claim C3: `call` and `notify` reject immediately with no transmission
when the socket is not ready (state and queue untouched, no effect); when
ready the frame is transmitted, and for `call` the pending entry is
registered under the allocated id exactly when the send callback reports no
error — a send failure rejects that call and leaves the queue untouched, so
no entry is ever registered for its id. -/
theorem c3_call_notify_gate (st : ClientState) (method : String)
    (params sendErr : JVal) :
    (st.ready = false →
      call st method params sendErr = (st, CallOutcome.notReady, [])
      ∧ notify st method params sendErr = (st, NotifyOutcome.notReady, []))
    ∧ (st.ready = true → truthy sendErr = true →
      call st method params sendErr
        = ({ st with rpc_id := st.rpc_id + 1 }, CallOutcome.sendFailure sendErr,
            [Effect.sendMsg (reqMsg method params (st.rpc_id + 1))])
      ∧ notify st method params sendErr
        = (st, NotifyOutcome.sendFailure sendErr,
            [Effect.sendMsg (notifMsg method params)]))
    ∧ (st.ready = true → truthy sendErr = false →
      call st method params sendErr
        = ({ st with
              rpc_id := st.rpc_id + 1
              queue := qSet st.queue (st.rpc_id + 1) QEntry.pending },
            CallOutcome.registered (st.rpc_id + 1),
            [Effect.sendMsg (reqMsg method params (st.rpc_id + 1))])
      ∧ qLookup (qSet st.queue (st.rpc_id + 1) QEntry.pending) (st.rpc_id + 1)
          = some QEntry.pending
      ∧ notify st method params sendErr
        = (st, NotifyOutcome.resolved,
            [Effect.sendMsg (notifMsg method params)])) := by
  refine ⟨?_, ?_, ?_⟩
  · intro h
    constructor <;> simp [call, notify, h]
  · intro h he
    constructor <;> simp [call, notify, h, he]
  · intro h he
    refine ⟨?_, qLookup_qSet_self _ _ _, ?_⟩ <;> simp [call, notify, h, he]

/-- Claim C3, witness: a call on a fresh (not yet open) client is rejected
without transmission, and a call on an open client with a clean send ack is
registered under the freshly allocated id 4. -/
theorem c3_call_notify_gate_w :
    call st0 "add" JVal.undefined JVal.undefined = (st0, CallOutcome.notReady, [])
    ∧ call stReady "add" JVal.undefined JVal.undefined
      = ({ stReady with
            rpc_id := 4
            queue := qSet stReady.queue 4 QEntry.pending },
          CallOutcome.registered 4,
          [Effect.sendMsg (reqMsg "add" JVal.undefined 4)]) :=
  ⟨((c3_call_notify_gate st0 "add" JVal.undefined JVal.undefined).1 rfl).1,
    ((c3_call_notify_gate stReady "add" JVal.undefined JVal.undefined).2.2 rfl rfl).1⟩

/-- Claim C4: correlation ids are allocated as `++this.rpc_id` — each `call`
issued while ready takes the strictly larger, positive id `rpc_id + 1`; no
other operation (`notify`, `_connect`, the open/close/message handlers) ever
changes the counter, so ids are unique for the lifetime of the instance and
are not reset across reconnects; and an inbound response is matched to the
pending entry carrying exactly its id, whatever the arrival order. -/
theorem c4_ids (st : ClientState) (L : JVal → Nat) (method : String)
    (params sendErr : JVal) (code : Int) (pr : ParseResult) :
    (st.ready = true →
      (call st method params sendErr).1.rpc_id = st.rpc_id + 1
      ∧ 0 < (call st method params sendErr).1.rpc_id)
    ∧ st.rpc_id ≤ (call st method params sendErr).1.rpc_id
    ∧ (notify st method params sendErr).1.rpc_id = st.rpc_id
    ∧ (connectStep st).rpc_id = st.rpc_id
    ∧ (onOpen st).1.rpc_id = st.rpc_id
    ∧ (onClose st code).1.rpc_id = st.rpc_id
    ∧ (∀ st2 effs, onMessage L st pr = .ok (st2, effs) → st2.rpc_id = st.rpc_id)
    ∧ (∀ m k, notifTaken L m = false → toKey m.id = some k →
        qLive st.queue k = true → truthy m.error = false →
        onMessage L st (.parsed m)
          = .ok ({ st with queue := qSet st.queue k QEntry.tombstone },
              [Effect.resolveCb k m.result])) := by
  refine ⟨?_, ?_, ?_, rfl, rfl, ?_, ?_, ?_⟩
  · intro h
    by_cases he : truthy sendErr <;> (constructor <;> simp [call, h, he])
  · by_cases h : st.ready = true
    · by_cases he : truthy sendErr <;> simp [call, h, he]
    · have h' : st.ready = false := by simpa using h
      simp [call, h']
  · by_cases h : st.ready = true
    · by_cases he : truthy sendErr <;> simp [notify, h, he]
    · have h' : st.ready = false := by simpa using h
      simp [notify, h']
  · unfold onClose
    split
    · rfl
    · split <;> rfl
  · exact fun st2 effs h => onMessage_rpc_id L st pr st2 effs h
  · intro m k hn hk hq he
    rw [onMessage_resp L st m k hn hk hq]
    simp [he]

/-- Claim C4, witness: on the open client with calls 1, 2, 3 pending, the
response carrying id 3 resolves exactly call 3. -/
theorem c4_ids_w :
    onMessage Lnone stReady (.parsed { id := JVal.num 3, result := JVal.num 9 })
      = .ok ({ stReady with queue := qSet stReady.queue 3 QEntry.tombstone },
          [Effect.resolveCb 3 (JVal.num 9)]) :=
  (c4_ids stReady Lnone "m" JVal.undefined JVal.undefined 1000 ParseResult.malformed).2.2.2.2.2.2.2
    { id := JVal.num 3, result := JVal.num 9 } 3 rfl rfl rfl rfl

/-- Claim C5: a response for a live registered id invokes exactly one of the
two stored callbacks — reject when the message carries a truthy `error`,
resolve otherwise — and tombstones the entry, after which the id is no
longer live; a message whose id is unknown (absent key, or a key that does
not normalise to a registered number) or already tombstoned is a silent
no-op: no callback, no state change, no error. -/
theorem c5_single_resolution (L : JVal → Nat) (st : ClientState) (m : JMsg)
    (hn : notifTaken L m = false) :
    (toKey m.id = none → onMessage L st (.parsed m) = .ok (st, []))
    ∧ (∀ k, toKey m.id = some k →
        (qLive st.queue k = false → onMessage L st (.parsed m) = .ok (st, []))
        ∧ (qLive st.queue k = true →
            onMessage L st (.parsed m)
              = .ok ({ st with queue := qSet st.queue k QEntry.tombstone },
                  [if truthy m.error then Effect.rejectCb k m.error
                   else Effect.resolveCb k m.result])
            ∧ qLive (qSet st.queue k QEntry.tombstone) k = false)) := by
  refine ⟨(onMessage_resp_miss L st m hn).1, ?_⟩
  intro k hk
  refine ⟨fun hq => (onMessage_resp_miss L st m hn).2 k hk hq,
    fun hq => ⟨onMessage_resp L st m k hn hk hq, ?_⟩⟩
  unfold qLive
  rw [qLookup_qSet_self]

/-- Claim C5, witness: the error response for pending id 2 rejects exactly
that call and tombstones it, so its id is no longer live afterwards. -/
theorem c5_single_resolution_w :
    onMessage Lnone stReady (.parsed { id := JVal.num 2, error := JVal.str "bad" })
      = .ok ({ stReady with queue := qSet stReady.queue 2 QEntry.tombstone },
          [Effect.rejectCb 2 (JVal.str "bad")])
    ∧ qLive (qSet stReady.queue 2 QEntry.tombstone) 2 = false := by
  have h := ((c5_single_resolution Lnone stReady
    { id := JVal.num 2, error := JVal.str "bad" } rfl).2 2 rfl).2 rfl
  exact ⟨by simpa using h.1, h.2⟩

/-- Claim C6 (amended): for a pushed notification whose name is a *nonempty*
string, zero attached listeners means the message is dropped with no effect
at all, and with listeners attached the event is emitted once with the
notification's parameters expanded positionally (an empty parameter array
emits with no arguments).  The nonemptiness proviso is forced by the
counterexample: an empty-string name is falsy in the JavaScript guard, so
such a notification is dropped even when listeners are attached. -/
theorem c6_event_dispatch (L : JVal → Nat) (st : ClientState) (name : String)
    (ps : List JVal) (hname : name ≠ "") :
    (L (JVal.str name) = 0 →
      onMessage L st
        (.parsed { notification := JVal.str name, params := JVal.arr ps })
        = .ok (st, []))
    ∧ (L (JVal.str name) ≠ 0 →
      onMessage L st
        (.parsed { notification := JVal.str name, params := JVal.arr ps })
        = .ok (st, [Effect.emitEvent (JVal.str name) ps])) := by
  constructor
  · intro hL
    have hn : notifTaken L
        { notification := JVal.str name, params := JVal.arr ps } = false := by
      simp [notifTaken, hL]
    exact (onMessage_resp_miss L st _ hn).1 rfl
  · intro hL
    have hn : notifTaken L
        { notification := JVal.str name, params := JVal.arr ps } = true := by
      simp [notifTaken, truthy, hname, hL]
    simp only [onMessage, hn, if_true]
    rcases ps with _ | ⟨p, ps'⟩
    · simp [lengthRead, truthy]
    · have hlen : (!truthy (JVal.num (Int.ofNat (p :: ps').length))) = false := by
        simp [truthy]
        omega
      simp only [lengthRead, hlen, Bool.false_eq_true, if_false]
      rw [show loopBound (JVal.num (Int.ofNat (p :: ps').length)) = (p :: ps').length
            from by simp [loopBound]]
      rw [buildArgs_arr]

/-- Claim C6, counterexample to the claim as stated: the notification name
`""` has one attached listener and params `[1, 2]`, yet the handler emits
nothing — `message.notification` is the empty string, which is falsy, so the
guard fails and the message falls through to the response path (and, having
no id, is dropped).  The claim requires the listener to be invoked with
arguments `(1, 2)`. -/
theorem c6_cx_empty_name :
    onMessage Lempty st0
      (.parsed { notification := JVal.str ""
                 params := JVal.arr [JVal.num 1, JVal.num 2] })
      = .ok (st0, []) := rfl

/-- Claim C6, witness: `{"notification":"tick","params":[1,2]}` with one
listener on `"tick"` emits `tick` with arguments `(1, 2)`. -/
theorem c6_event_dispatch_w :
    onMessage L1 st0
      (.parsed { notification := JVal.str "tick"
                 params := JVal.arr [JVal.num 1, JVal.num 2] })
      = .ok (st0, [Effect.emitEvent (JVal.str "tick") [JVal.num 1, JVal.num 2]]) :=
  (c6_event_dispatch L1 st0 "tick" [JVal.num 1, JVal.num 2] (by decide)).2
    (by decide)

/-- Claim C9: message classification is not exclusive — a message carrying a
`notification` name with zero attached listeners falls through to the
response path, so when it also carries the id of a live pending call, that
call is resolved (rejected when the message has a truthy `error`). -/
theorem c9_fallthrough (L : JVal → Nat) (st : ClientState) (name : String)
    (ps : JVal) (k : Nat) (err res : JVal)
    (hL : L (JVal.str name) = 0) (hq : qLive st.queue k = true) :
    onMessage L st
      (.parsed { notification := JVal.str name
                 params := ps
                 id := JVal.num (Int.ofNat k)
                 error := err
                 result := res })
      = .ok ({ st with queue := qSet st.queue k QEntry.tombstone },
          [if truthy err then Effect.rejectCb k err
           else Effect.resolveCb k res]) := by
  apply onMessage_resp
  · simp [notifTaken, hL]
  · simp [toKey]
  · exact hq

/-- Claim C9, witness: a notification-shaped message named `"evt"` (no
listeners attached) that also carries id 1 resolves pending call 1. -/
theorem c9_fallthrough_w :
    onMessage Lnone stReady
      (.parsed { notification := JVal.str "evt"
                 params := JVal.arr []
                 id := JVal.num 1
                 error := JVal.undefined
                 result := JVal.num 7 })
      = .ok ({ stReady with queue := qSet stReady.queue 1 QEntry.tombstone },
          [Effect.resolveCb 1 (JVal.num 7)]) := by
  have h := c9_fallthrough Lnone stReady "evt" (JVal.arr []) 1 JVal.undefined
    (JVal.num 7) rfl rfl
  simpa [truthy] using h

/-- Claim C10 (amended): when a notification has at least one attached
listener, a missing `params` field (`undefined`) or a `null` one makes the
handler throw an uncaught `TypeError` while reading `params.length` — the
silent-discard guarantee covers only JSON decode failures.  But a `params`
value that merely lacks a `length` property without being `undefined`/`null`
(a number or a boolean) does **not** throw: the property read yields
`undefined`, the emptiness test succeeds, and the listeners are invoked with
no arguments. -/
theorem c10_params_length (L : JVal → Nat) (st : ClientState) (m : JMsg)
    (hn : notifTaken L m = true) :
    ((m.params = JVal.undefined ∨ m.params = JVal.null) →
      onMessage L st (.parsed m) = .error JsErr.typeError)
    ∧ (∀ n, m.params = JVal.num n →
      onMessage L st (.parsed m) = .ok (st, [Effect.emitEvent m.notification []]))
    ∧ (∀ b, m.params = JVal.bool b →
      onMessage L st (.parsed m) = .ok (st, [Effect.emitEvent m.notification []])) := by
  refine ⟨?_, ?_, ?_⟩
  · rintro (hp | hp) <;> simp [onMessage, hn, hp, lengthRead]
  · intro n hp
    simp [onMessage, hn, hp, lengthRead, truthy]
  · intro b hp
    simp [onMessage, hn, hp, lengthRead, truthy]

/-- Claim C10, counterexample to the claim as stated: `params` is the number
`5`, which has no `length` property, and the event `"a"` has a listener
attached; the claim demands an uncaught `TypeError`, but the handler returns
normally and emits the event with no arguments (`(5).length` is `undefined`
in JavaScript, not an error). -/
theorem c10_cx_numeric_params :
    onMessage La st0 (.parsed { notification := JVal.str "a", params := JVal.num 5 })
      = .ok (st0, [Effect.emitEvent (JVal.str "a") []]) := rfl

/-- Claim C10, witness: with a listener attached to `"a"` and no `params`
field at all, the handler throws a `TypeError`. -/
theorem c10_params_length_w :
    onMessage La st0 (.parsed { notification := JVal.str "a" })
      = .error JsErr.typeError :=
  (c10_params_length La st0 { notification := JVal.str "a" } rfl).1 (Or.inl rfl)

end RpcWs
